import Mathlib

/-!
Verification of the slide-deck conversion backend (`src/main.py`) against its
natural-language specification.

The Python source is shallowly embedded below.  Pure functions (`hex_to_rgb`)
become Lean functions; the stateful rendering helpers (`add_title_slide`,
`add_content_slide`, `build_presentation`) become functions producing explicit
`RenderedSlide` / `Document` values, with the running vertical cursor passed
explicitly.  The network image pipeline (`requests.get` + PIL decode + PNG
re-encode, lines 133-138) is abstracted as a parameter
`fetch : String → Option (List Nat)`: `some bytes` models a successful fetch,
decode and re-encode (the final PNG byte string), `none` models any exception
raised inside the `try` block (which the source catches and ignores).
Layout coordinates (Python floats such as `2.4`, `1.0`, `3.2`) are exact
decimals here, modelled as rationals.
-/

namespace PptxBackend

/-- RGB triple, modelling `pptx.dml.color.RGBColor`. -/
structure RGBColor where
  r : Nat
  g : Nat
  b : Nat
deriving DecidableEq, Repr

/-- Value of a single hexadecimal digit character (`0`-`9`, `a`-`f`, `A`-`F`
by character code), `none` for every other character. -/
def hexVal (c : Char) : Option Nat :=
  if 48 ≤ c.toNat ∧ c.toNat ≤ 57 then some (c.toNat - 48)
  else if 97 ≤ c.toNat ∧ c.toNat ≤ 102 then some (c.toNat - 97 + 10)
  else if 65 ≤ c.toNat ∧ c.toNat ≤ 70 then some (c.toNat - 65 + 10)
  else none

/-- The ASCII characters Python's `int()` strips as surrounding whitespace:
tab through carriage return (codes 9-13) and space (code 32). -/
def isPySpace (c : Char) : Bool :=
  (9 ≤ c.toNat && c.toNat ≤ 13) || c.toNat == 32

/-- Python `int(s, 16)` on the length-at-most-two slices `hex_to_rgb`
examines.  The empty string raises (`none`).  A single character must be a
hex digit.  A pair parses when it is two hex digits, a hex digit with
whitespace on either side, or a leading `+`/`-` sign before a hex digit --
the sign case is why the result is an `Int`, e.g. `int("-1", 16) = -1`.
Every other pair (a `$`, `_`, `x`, a lone sign, double whitespace, ...)
raises.  Faithful to CPython for ASCII slices; `hex_to_rgb` never passes a
slice longer than two characters, so longer lists are unconstrained. -/
def pyIntHex : List Char → Option Int
  | [] => none
  | [a] => (hexVal a).map (fun v => ((v : Nat) : Int))
  | [a, b] =>
    match hexVal a, hexVal b with
    | some va, some vb => some ((16 * va + vb : Nat) : Int)
    | some va, none => if isPySpace b then some ((va : Nat) : Int) else none
    | none, some vb =>
      if isPySpace a || a == '+' then some ((vb : Nat) : Int)
      else if a == '-' then some (-((vb : Nat) : Int))
      else none
    | none, none => none
  | _ :: _ :: _ :: _ => none

/-- `hex_to_rgb` (src/main.py lines 44-49).  `lstrip('#')` removes every
leading `'#'`; the three components are `int(hex_str[0:2], 16)`,
`int(hex_str[2:4], 16)`, `int(hex_str[4:6], 16)`, evaluated in that order,
and `RGBColor.__new__` then validates that each component is an integer in
0-255.  Any `ValueError` along the way is modelled as `none`. -/
def hex_to_rgb (s : String) : Option RGBColor :=
  let cs := s.toList.dropWhile (fun c => c == '#')
  (pyIntHex (cs.take 2)).bind (fun r =>
    (pyIntHex ((cs.drop 2).take 2)).bind (fun g =>
      (pyIntHex ((cs.drop 4).take 2)).bind (fun b =>
        if 0 ≤ r ∧ r ≤ 255 ∧ 0 ≤ g ∧ g ≤ 255 ∧ 0 ≤ b ∧ b ≤ 255
        then some ⟨r.toNat, g.toNat, b.toNat⟩ else none)))

/-- `SlideItem` (src/main.py lines 24-29). -/
structure SlideItem where
  type : String
  content : Option String := none
  subtitle : Option String := none
  image_url : Option String := none
  caption : Option String := none
deriving DecidableEq, Repr

/-- `SlideSpec` (src/main.py lines 31-34). -/
structure SlideSpec where
  title : String
  subtitle : Option String := none
  items : List SlideItem := []
deriving DecidableEq, Repr

/-- `PresentationSpec` (src/main.py lines 36-41). -/
structure PresentationSpec where
  theme_primary : String := "0b1220"
  theme_accent : String := "d4af37"
  theme_text : String := "ffffff"
  slides : List SlideSpec
  filename : String := "Mesurer_la_Terre.pptx"
deriving DecidableEq, Repr

/-- The `colors` dict built in `build_presentation` (lines 160-164). -/
structure ResolvedColors where
  primary : RGBColor
  accent : RGBColor
  text : RGBColor
deriving DecidableEq, Repr

/-- Python truthiness of an `Optional[str]`: `None` and `""` are falsy. -/
def truthy (o : Option String) : Bool :=
  match o with
  | none => false
  | some s => !(s == "")

/-- Python `x or ""` on an `Optional[str]` (line 171). -/
def orEmpty (o : Option String) : String :=
  match o with
  | none => ""
  | some s => s

inductive Align where
  | left
  | center
deriving DecidableEq, Repr

/-- One visual element placed on a slide.  `titlePh`/`subtitlePh` are the
layout placeholders (`slide.shapes.title`, `slide.placeholders[1]`);
`textbox` is `slide.shapes.add_textbox` with its explicit geometry (inches);
`picture` is `slide.shapes.add_picture` with the embedded image bytes. -/
inductive Element where
  | titlePh (text : String) (fontName : String) (size : Nat) (bold : Bool)
      (align : Align) (color : RGBColor)
  | subtitlePh (text : String) (fontName : String) (size : Nat)
      (align : Align) (color : RGBColor)
  | textbox (x y w h : ℚ) (text : String) (fontName : String) (size : Nat)
      (bold : Bool) (align : Align) (wordWrap : Bool) (color : RGBColor)
  | picture (x y w h : ℚ) (data : List Nat)
deriving DecidableEq, Repr

/-- A rendered slide: layout index, solid background fill, elements in the
order they are added. -/
structure RenderedSlide where
  layoutIndex : Nat
  background : RGBColor
  elements : List Element
deriving DecidableEq, Repr

/-- The accumulated package (`Presentation`); slides in the order added. -/
structure Document where
  slides : List RenderedSlide
deriving DecidableEq, Repr

/-- `add_title_slide` (lines 52-81): layout 0, solid primary background,
centered bold 54pt title in the text color; the subtitle placeholder is
filled iff the passed subtitle `is not None` (line 71). -/
def add_title_slide (title : String) (subtitle : Option String)
    (colors : ResolvedColors) : RenderedSlide :=
  { layoutIndex := 0
    background := colors.primary
    elements :=
      Element.titlePh title "Inter" 54 true Align.center colors.text ::
      (match subtitle with
       | some s => [Element.subtitlePh s "Inter" 24 Align.center colors.text]
       | none => []) }

/-- The body of one iteration of the item loop of `add_content_slide`
(lines 116-154): given the current cursor `y`, returns the elements this item
adds and the new cursor. -/
def render_item (fetch : String → Option (List Nat)) (colors : ResolvedColors)
    (item : SlideItem) (y : ℚ) : List Element × ℚ :=
  if (item.type == "text" || item.type == "equation") && truthy item.content then
    ([Element.textbox (9/10) y 7 (12/10) (orEmpty item.content) "Inter"
        (if item.type == "text" then 18 else 20) (item.type == "equation")
        Align.left true colors.text],
     y + 1)
  else if (item.type == "image") && truthy item.image_url then
    ((match fetch (orEmpty item.image_url) with
      | some data =>
        Element.picture (82/10) (y - 2/10) (45/10) (28/10) data ::
          (if truthy item.caption then
            [Element.textbox (82/10) (y + 27/10) (45/10) (6/10)
              (orEmpty item.caption) "Inter" 12 false Align.left false colors.text]
          else [])
      | none => []),
     y + 32/10)
  else ([], y)

/-- The item loop of `add_content_slide` (lines 115-154), with the cursor
threaded explicitly: elements added by all items, and the final cursor. -/
def render_items (fetch : String → Option (List Nat)) (colors : ResolvedColors) :
    List SlideItem → ℚ → List Element × ℚ
  | [], y => ([], y)
  | item :: rest, y =>
    let r := render_item fetch colors item y
    let r2 := render_items fetch colors rest r.2
    (r.1 ++ r2.1, r2.2)

/-- `add_content_slide` (lines 83-154): layout 5, solid primary background,
left-aligned bold 38pt title; a subtitle textbox iff `spec.subtitle` is truthy
(line 103); then the item loop starting at cursor `2.4`. -/
def add_content_slide (fetch : String → Option (List Nat))
    (colors : ResolvedColors) (spec : SlideSpec) : RenderedSlide :=
  { layoutIndex := 5
    background := colors.primary
    elements :=
      Element.titlePh spec.title "Inter" 38 true Align.left colors.text ::
      ((if truthy spec.subtitle then
          [Element.textbox (9/10) (18/10) 11 1 (orEmpty spec.subtitle) "Inter"
            20 false Align.left false colors.text]
        else []) ++
       (render_items fetch colors spec.items (12/5)).1) }

/-- Failures of `build_presentation`: a `ValueError` from `hex_to_rgb`
(the spec's `InvalidColorFormat`) or the 400 `HTTPException` raised on an
empty slide list (the spec's `EmptySlideList`). -/
inductive BuildError where
  | invalidColorFormat
  | emptySlideList
deriving DecidableEq, Repr

/-- `build_presentation` (lines 157-179).  Note the source order: the three
`hex_to_rgb` calls building `colors` (lines 160-164) run before the
empty-slide check (line 166).  Slide 0 goes through `add_title_slide` with
`first.subtitle or ""` (line 171); the rest through `add_content_slide`. -/
def build_presentation (fetch : String → Option (List Nat))
    (spec : PresentationSpec) : Except BuildError Document :=
  match hex_to_rgb spec.theme_primary, hex_to_rgb spec.theme_accent,
        hex_to_rgb spec.theme_text with
  | some p, some a, some t =>
    match spec.slides with
    | [] => Except.error BuildError.emptySlideList
    | first :: rest =>
      Except.ok ⟨add_title_slide first.title (some (orEmpty first.subtitle)) ⟨p, a, t⟩ ::
                 rest.map (add_content_slide fetch ⟨p, a, t⟩)⟩
  | _, _, _ => Except.error BuildError.invalidColorFormat

/-! ## Helper lemmas on the color resolver -/

lemma hexVal_hash : hexVal '#' = none := by decide

lemma beq_hash_false_of_hexVal {c : Char} {v : Nat} (h : hexVal c = some v) :
    (c == '#') = false := by
  rcases eq_or_ne c '#' with rfl | hne
  · rw [hexVal_hash] at h; exact absurd h (by simp)
  · simp [hne]

lemma hexVal_le15 {c : Char} {v : Nat} (h : hexVal c = some v) : v ≤ 15 := by
  unfold hexVal at h
  split at h
  next h1 => cases h; omega
  next h1 =>
    split at h
    next h2 => cases h; omega
    next h2 =>
      split at h
      next h3 => cases h; omega
      next h3 => cases h

lemma pyIntHex_pair {a b : Char} {va vb : Nat}
    (ha : hexVal a = some va) (hb : hexVal b = some vb) :
    pyIntHex [a, b] = some ((16 * va + vb : Nat) : Int) := by
  simp [pyIntHex, ha, hb]

lemma pyIntHex_single {a : Char} {va : Nat} (ha : hexVal a = some va) :
    pyIntHex [a] = some ((va : Nat) : Int) := by
  simp [pyIntHex, ha]

lemma pyIntHex_first_reject {m : Char} (hm : hexVal m = none)
    (hsp : isPySpace m = false) (hplus : (m == '+') = false)
    (hminus : (m == '-') = false) (b : Char) :
    pyIntHex [m, b] = none := by
  cases hb : hexVal b <;> simp [pyIntHex, hm, hb, hsp, hplus, hminus]

lemma pyIntHex_plus_first {b : Char} {vb : Nat} (hb : hexVal b = some vb) :
    pyIntHex ['+', b] = some ((vb : Nat) : Int) := by
  have h1 : hexVal '+' = none := by decide
  have h2 : (isPySpace '+' || '+' == '+') = true := by decide
  simp [pyIntHex, h1, hb, h2]

lemma rgb_guard {r g b : Nat} (hr : r ≤ 255) (hg : g ≤ 255) (hb : b ≤ 255) :
    (if 0 ≤ ((r : Nat) : Int) ∧ ((r : Nat) : Int) ≤ 255 ∧
        0 ≤ ((g : Nat) : Int) ∧ ((g : Nat) : Int) ≤ 255 ∧
        0 ≤ ((b : Nat) : Int) ∧ ((b : Nat) : Int) ≤ 255
     then some (⟨((r : Nat) : Int).toNat, ((g : Nat) : Int).toNat,
                 ((b : Nat) : Int).toNat⟩ : RGBColor) else none) = some ⟨r, g, b⟩ := by
  rw [if_pos]
  · simp
  · refine ⟨Int.natCast_nonneg r, by exact_mod_cast hr, Int.natCast_nonneg g,
      by exact_mod_cast hg, Int.natCast_nonneg b, by exact_mod_cast hb⟩

lemma dropWhile_hash_replicate (k : Nat) (l : List Char) :
    (List.replicate k '#' ++ l).dropWhile (fun c => c == '#') =
      l.dropWhile (fun c => c == '#') := by
  induction k with
  | zero => simp
  | succ n ih => simp [List.replicate_succ, List.dropWhile_cons, ih]

/-- When fewer than five characters remain after marker stripping, the third
slice `[4:6]` is empty and `int("", 16)` always raises, so `hex_to_rgb`
fails regardless of the characters present. -/
lemma pyIntHex_nil : pyIntHex [] = none := rfl

lemma rgb_chain_short (cs : List Char) (h : cs.length < 5) :
    (pyIntHex (cs.take 2)).bind (fun r =>
      (pyIntHex ((cs.drop 2).take 2)).bind (fun g =>
        (pyIntHex ((cs.drop 4).take 2)).bind (fun b =>
          if 0 ≤ r ∧ r ≤ 255 ∧ 0 ≤ g ∧ g ≤ 255 ∧ 0 ≤ b ∧ b ≤ 255
          then some (⟨r.toNat, g.toNat, b.toNat⟩ : RGBColor) else none))) = none := by
  have h3 : (cs.drop 4).take 2 = [] := by
    have hnil : cs.drop 4 = [] := List.drop_eq_nil_of_le (by omega)
    rw [hnil]
    rfl
  cases p1 : pyIntHex (cs.take 2) <;> cases p2 : pyIntHex ((cs.drop 2).take 2) <;>
    simp [p1, p2, h3, pyIntHex_nil]

lemma hex_to_rgb_short (s : String)
    (h : (s.toList.dropWhile (fun c => c == '#')).length < 5) :
    hex_to_rgb s = none :=
  rgb_chain_short (s.toList.dropWhile (fun c => c == '#')) h

lemma rgb_chain_pairs {a1 a2 b1 b2 d1 d2 : Char} {w1 w2 w3 w4 w5 w6 : Nat}
    (h1 : hexVal a1 = some w1) (h2 : hexVal a2 = some w2)
    (h3 : hexVal b1 = some w3) (h4 : hexVal b2 = some w4)
    (h5 : hexVal d1 = some w5) (h6 : hexVal d2 = some w6) :
    (pyIntHex [a1, a2]).bind (fun r =>
      (pyIntHex [b1, b2]).bind (fun g =>
        (pyIntHex [d1, d2]).bind (fun b =>
          if 0 ≤ r ∧ r ≤ 255 ∧ 0 ≤ g ∧ g ≤ 255 ∧ 0 ≤ b ∧ b ≤ 255
          then some (⟨r.toNat, g.toNat, b.toNat⟩ : RGBColor) else none))) =
      some ⟨16 * w1 + w2, 16 * w3 + w4, 16 * w5 + w6⟩ := by
  rw [pyIntHex_pair h1 h2, pyIntHex_pair h3 h4, pyIntHex_pair h5 h6]
  simp only [Option.some_bind]
  exact rgb_guard
    (by have := hexVal_le15 h1; have := hexVal_le15 h2; omega)
    (by have := hexVal_le15 h3; have := hexVal_le15 h4; omega)
    (by have := hexVal_le15 h5; have := hexVal_le15 h6; omega)

lemma rgb_chain_five {a1 a2 b1 b2 d1 : Char} {w1 w2 w3 w4 w5 : Nat}
    (h1 : hexVal a1 = some w1) (h2 : hexVal a2 = some w2)
    (h3 : hexVal b1 = some w3) (h4 : hexVal b2 = some w4)
    (h5 : hexVal d1 = some w5) :
    (pyIntHex [a1, a2]).bind (fun r =>
      (pyIntHex [b1, b2]).bind (fun g =>
        (pyIntHex [d1]).bind (fun b =>
          if 0 ≤ r ∧ r ≤ 255 ∧ 0 ≤ g ∧ g ≤ 255 ∧ 0 ≤ b ∧ b ≤ 255
          then some (⟨r.toNat, g.toNat, b.toNat⟩ : RGBColor) else none))) =
      some ⟨16 * w1 + w2, 16 * w3 + w4, w5⟩ := by
  rw [pyIntHex_pair h1 h2, pyIntHex_pair h3 h4, pyIntHex_single h5]
  simp only [Option.some_bind]
  exact rgb_guard
    (by have := hexVal_le15 h1; have := hexVal_le15 h2; omega)
    (by have := hexVal_le15 h3; have := hexVal_le15 h4; omega)
    (by have := hexVal_le15 h5; omega)

lemma rgb_chain_plus {a2 b1 b2 d1 d2 : Char} {w2 w3 w4 w5 w6 : Nat}
    (h2 : hexVal a2 = some w2)
    (h3 : hexVal b1 = some w3) (h4 : hexVal b2 = some w4)
    (h5 : hexVal d1 = some w5) (h6 : hexVal d2 = some w6) :
    (pyIntHex ['+', a2]).bind (fun r =>
      (pyIntHex [b1, b2]).bind (fun g =>
        (pyIntHex [d1, d2]).bind (fun b =>
          if 0 ≤ r ∧ r ≤ 255 ∧ 0 ≤ g ∧ g ≤ 255 ∧ 0 ≤ b ∧ b ≤ 255
          then some (⟨r.toNat, g.toNat, b.toNat⟩ : RGBColor) else none))) =
      some ⟨w2, 16 * w3 + w4, 16 * w5 + w6⟩ := by
  rw [pyIntHex_plus_first h2, pyIntHex_pair h3 h4, pyIntHex_pair h5 h6]
  simp only [Option.some_bind]
  exact rgb_guard
    (by have := hexVal_le15 h2; omega)
    (by have := hexVal_le15 h3; have := hexVal_le15 h4; omega)
    (by have := hexVal_le15 h5; have := hexVal_le15 h6; omega)

/-! ## Helper lemmas on the renderer -/

lemma render_items_all_text (fetch : String → Option (List Nat))
    (colors : ResolvedColors) :
    ∀ (items : List SlideItem) (y : ℚ),
      (∀ it ∈ items, (it.type = "text" ∨ it.type = "equation") ∧ truthy it.content = true) →
      (render_items fetch colors items y).2 = y + items.length := by
  intro items
  induction items with
  | nil => intro y _; simp [render_items]
  | cons it rest ih =>
    intro y h
    obtain ⟨hty, hc⟩ := h it (List.mem_cons_self it rest)
    have hrest := fun x hx => h x (List.mem_cons_of_mem it hx)
    have hcur : (render_item fetch colors it y).2 = y + 1 := by
      rcases hty with h1 | h1 <;> simp [render_item, h1, hc]
    simp only [render_items]
    rw [hcur, ih _ hrest]
    simp [List.length_cons]
    ring

lemma render_item_skip (fetch : String → Option (List Nat)) (colors : ResolvedColors)
    (it : SlideItem) (y : ℚ)
    (hA : ¬ ((it.type = "text" ∨ it.type = "equation") ∧ truthy it.content = true))
    (hB : ¬ (it.type = "image" ∧ truthy it.image_url = true)) :
    render_item fetch colors it y = ([], y) := by
  have h1 : ((it.type == "text" || it.type == "equation") && truthy it.content) = false := by
    rw [Bool.eq_false_iff]
    intro hc
    exact hA (by simpa [Bool.and_eq_true, Bool.or_eq_true, beq_iff_eq] using hc)
  have h2 : ((it.type == "image") && truthy it.image_url) = false := by
    rw [Bool.eq_false_iff]
    intro hc
    exact hB (by simpa [Bool.and_eq_true, beq_iff_eq] using hc)
  simp [render_item, h1, h2]

lemma render_items_append (fetch : String → Option (List Nat)) (colors : ResolvedColors) :
    ∀ (xs ys : List SlideItem) (y : ℚ),
      render_items fetch colors (xs ++ ys) y =
        ((render_items fetch colors xs y).1 ++
           (render_items fetch colors ys (render_items fetch colors xs y).2).1,
         (render_items fetch colors ys (render_items fetch colors xs y).2).2) := by
  intro xs
  induction xs with
  | nil => intro ys y; simp [render_items]
  | cons x xs ih => intro ys y; simp [render_items, ih]

lemma render_item_image_fail (fetch : String → Option (List Nat))
    (colors : ResolvedColors) (it : SlideItem) (url : String) (y : ℚ)
    (hty : it.type = "image") (hurl : it.image_url = some url) (hne : url ≠ "")
    (hf : fetch url = none) :
    render_item fetch colors it y = ([], y + 32/10) := by
  simp [render_item, hty, hurl, truthy, orEmpty, hne, hf]

lemma render_item_text_only (fetch : String → Option (List Nat)) (p1 p2 a t : RGBColor) :
    render_item fetch ⟨p1, a, t⟩ = render_item fetch ⟨p2, a, t⟩ := rfl

lemma render_items_text_only (fetch : String → Option (List Nat)) (p1 p2 a t : RGBColor) :
    ∀ (items : List SlideItem) (y : ℚ),
      render_items fetch ⟨p1, a, t⟩ items y = render_items fetch ⟨p2, a, t⟩ items y := by
  intro items
  induction items with
  | nil => intro y; rfl
  | cons it rest ih =>
    intro y
    simp [render_items, render_item_text_only fetch p1 p2 a t, ih]

lemma add_title_slide_bg (title : String) (sub : Option String) (p1 p2 a t : RGBColor) :
    add_title_slide title sub ⟨p2, a, t⟩ =
      { add_title_slide title sub ⟨p1, a, t⟩ with background := p2 } := by
  cases sub <;> rfl

lemma add_content_slide_bg (fetch : String → Option (List Nat)) (s : SlideSpec)
    (p1 p2 a t : RGBColor) :
    add_content_slide fetch ⟨p2, a, t⟩ s =
      { add_content_slide fetch ⟨p1, a, t⟩ s with background := p2 } := by
  simp [add_content_slide, render_items_text_only fetch p1 p2 a t]

/-! ## Concrete fixtures for witnesses and counterexamples -/

/-- A fetcher for which every image retrieval fails (unreachable URLs). -/
def fetchNever : String → Option (List Nat) := fun _ => none

/-- The resolved default theme of `PresentationSpec`. -/
def colorsDefault : ResolvedColors := ⟨⟨11, 18, 32⟩, ⟨212, 175, 55⟩, ⟨255, 255, 255⟩⟩

/-- A content slide holding one image item whose fetch fails and one text item. -/
def c1_failSlide : SlideSpec :=
  ⟨"S2", none,
   [⟨"image", none, none, some "http://down.example/x.png", some "cap"⟩,
    ⟨"text", some "hello", none, none, none⟩]⟩

/-- A spec whose only slide has no subtitle. -/
def c7_spec : PresentationSpec := { slides := [{ title := "T" }] }

/-- What `build_presentation` produces on `c7_spec`: a single title slide that
carries a subtitle placeholder holding the empty string. -/
def c7_doc : Document :=
  ⟨[⟨0, ⟨11, 18, 32⟩,
    [Element.titlePh "T" "Inter" 54 true Align.center ⟨255, 255, 255⟩,
     Element.subtitlePh "" "Inter" 24 Align.center ⟨255, 255, 255⟩]⟩]⟩

/-- A spec with an empty slide list and a malformed primary color token. -/
def c5_spec : PresentationSpec := { theme_primary := "night", slides := [] }

/-- A spec whose primary color token has only five hex digits. -/
def c6_spec : PresentationSpec := { theme_primary := "0b122", slides := [{ title := "T" }] }

/-- A two-slide spec used to instantiate the C9 noninterference theorem. -/
def c9_specA : PresentationSpec :=
  ⟨"0b1220", "d4af37", "ffffff",
   [⟨"Deck", none, []⟩, ⟨"S2", none, [⟨"text", some "hi", none, none, none⟩]⟩],
   "f.pptx"⟩

/-! ## Claim theorems -/

/-- C1: a failing image item (unreachable URL or undecodable payload) does not
abort the conversion and leaves no trace: (1) on failure the item contributes
no element (no picture and no caption) and the cursor still advances by the
full image-row increment 3.2; (2) on success the cursor advances by the same
3.2; (3) within a slide, every item before and after the failing image item is
rendered exactly as if the failing item were absent, with the cursor advanced
by 3.2 across it; (4) the whole deck still builds without error, producing
every slide. -/
theorem c1_image_failure :
    (∀ (fetch : String → Option (List Nat)) (colors : ResolvedColors)
       (it : SlideItem) (url : String) (y : ℚ),
       it.type = "image" → it.image_url = some url → url ≠ "" → fetch url = none →
       render_item fetch colors it y = ([], y + 32/10)) ∧
    (∀ (fetch : String → Option (List Nat)) (colors : ResolvedColors)
       (it : SlideItem) (url : String) (data : List Nat) (y : ℚ),
       it.type = "image" → it.image_url = some url → url ≠ "" → fetch url = some data →
       (render_item fetch colors it y).2 = y + 32/10) ∧
    (∀ (fetch : String → Option (List Nat)) (colors : ResolvedColors)
       (pre post : List SlideItem) (it : SlideItem) (url : String) (y : ℚ),
       it.type = "image" → it.image_url = some url → url ≠ "" → fetch url = none →
       render_items fetch colors (pre ++ it :: post) y =
         ((render_items fetch colors pre y).1 ++
            (render_items fetch colors post ((render_items fetch colors pre y).2 + 32/10)).1,
          (render_items fetch colors post ((render_items fetch colors pre y).2 + 32/10)).2)) ∧
    (∀ (fetch : String → Option (List Nat)) (spec : PresentationSpec)
       (first : SlideSpec) (rest : List SlideSpec) (p a t : RGBColor),
       spec.slides = first :: rest →
       hex_to_rgb spec.theme_primary = some p →
       hex_to_rgb spec.theme_accent = some a →
       hex_to_rgb spec.theme_text = some t →
       ∃ d, build_presentation fetch spec = Except.ok d ∧
         d.slides.length = spec.slides.length) := by
  refine ⟨render_item_image_fail, ?_, ?_, ?_⟩
  · intro fetch colors it url data y hty hurl hne hf
    simp [render_item, hty, hurl, truthy, orEmpty, hne, hf]
  · intro fetch colors pre post it url y hty hurl hne hf
    rw [render_items_append]
    simp only [render_items]
    rw [render_item_image_fail fetch colors it url _ hty hurl hne hf]
    simp
  · intro fetch spec first rest p a t hs hp ha ht
    refine ⟨⟨add_title_slide first.title (some (orEmpty first.subtitle)) ⟨p, a, t⟩ ::
             rest.map (add_content_slide fetch ⟨p, a, t⟩)⟩, ?_, ?_⟩
    · simp [build_presentation, hp, ha, ht, hs]
    · simp [hs]

/-- C1 witness: a failing image item at the default cursor contributes nothing
and advances the cursor by 3.2, and a deck of a title slide plus a content
slide with that failing image item and a text item still builds two slides. -/
theorem c1_witness :
    render_item fetchNever colorsDefault
        ⟨"image", none, none, some "http://down.example/x.png", some "cap"⟩ (12/5 : ℚ) =
      ([], 12/5 + 32/10) ∧
    (∃ d, build_presentation fetchNever
        ⟨"0b1220", "d4af37", "ffffff", [⟨"Deck", none, []⟩, c1_failSlide], "f.pptx"⟩ =
        Except.ok d ∧ d.slides.length = 2) := by
  constructor
  · exact c1_image_failure.1 fetchNever colorsDefault
      ⟨"image", none, none, some "http://down.example/x.png", some "cap"⟩
      "http://down.example/x.png" (12/5) rfl rfl (by decide) rfl
  · obtain ⟨d, hd, hl⟩ := c1_image_failure.2.2.2 fetchNever
      ⟨"0b1220", "d4af37", "ffffff", [⟨"Deck", none, []⟩, c1_failSlide], "f.pptx"⟩
      ⟨"Deck", none, []⟩ [c1_failSlide] ⟨11, 18, 32⟩ ⟨212, 175, 55⟩ ⟨255, 255, 255⟩
      rfl rfl rfl rfl
    exact ⟨d, hd, hl⟩

/-- C2: on a spec with a non-empty slide list (and resolvable theme tokens),
`build_presentation` returns the document whose first slide is the title
rendering of slide 0 (which consumes only its title and subtitle, never its
items) followed by the content rendering of every later slide in input order;
hence the slide count equals the input slide count, and replacing slide 0's
items changes nothing. -/
theorem c2_assemble (fetch : String → Option (List Nat)) (spec : PresentationSpec)
    (first : SlideSpec) (rest : List SlideSpec) (p a t : RGBColor)
    (hs : spec.slides = first :: rest)
    (hp : hex_to_rgb spec.theme_primary = some p)
    (ha : hex_to_rgb spec.theme_accent = some a)
    (ht : hex_to_rgb spec.theme_text = some t) :
    build_presentation fetch spec =
      Except.ok ⟨add_title_slide first.title (some (orEmpty first.subtitle)) ⟨p, a, t⟩ ::
                 rest.map (add_content_slide fetch ⟨p, a, t⟩)⟩ ∧
    (∀ d, build_presentation fetch spec = Except.ok d →
       d.slides.length = spec.slides.length) ∧
    (∀ its, build_presentation fetch
        { spec with slides := { first with items := its } :: rest } =
      build_presentation fetch spec) := by
  have hb : build_presentation fetch spec =
      Except.ok ⟨add_title_slide first.title (some (orEmpty first.subtitle)) ⟨p, a, t⟩ ::
                 rest.map (add_content_slide fetch ⟨p, a, t⟩)⟩ := by
    simp [build_presentation, hp, ha, ht, hs]
  refine ⟨hb, ?_, ?_⟩
  · intro d hd
    rw [hb] at hd
    cases hd
    simp [hs]
  · intro its
    rw [hb]
    simp [build_presentation, hp, ha, ht]

/-- C2 witness: a concrete two-slide spec builds exactly a title rendering of
slide 0 followed by a content rendering of slide 1. -/
theorem c2_witness :
    build_presentation fetchNever
        ⟨"0b1220", "d4af37", "ffffff",
         [⟨"Deck", some "sub", []⟩, ⟨"S2", none, [⟨"text", some "hello", none, none, none⟩]⟩],
         "f.pptx"⟩ =
      Except.ok ⟨add_title_slide "Deck" (some "sub") ⟨⟨11, 18, 32⟩, ⟨212, 175, 55⟩, ⟨255, 255, 255⟩⟩ ::
        [⟨"S2", none, [⟨"text", some "hello", none, none, none⟩]⟩].map
          (add_content_slide fetchNever ⟨⟨11, 18, 32⟩, ⟨212, 175, 55⟩, ⟨255, 255, 255⟩⟩)⟩ :=
  (c2_assemble fetchNever
    ⟨"0b1220", "d4af37", "ffffff",
     [⟨"Deck", some "sub", []⟩, ⟨"S2", none, [⟨"text", some "hello", none, none, none⟩]⟩],
     "f.pptx"⟩ ⟨"Deck", some "sub", []⟩
    [⟨"S2", none, [⟨"text", some "hello", none, none, none⟩]⟩]
    ⟨11, 18, 32⟩ ⟨212, 175, 55⟩ ⟨255, 255, 255⟩ rfl rfl rfl rfl).1

/-- C3: on a content slide whose items are all text/equation items with
non-empty content, the cursor after the item loop equals the initial offset
2.4 plus one text-row increment 1.0 per item; and an item whose required
field is empty or absent, or whose type is unrecognized, contributes no
element and leaves the cursor unchanged. -/
theorem c3_cursor :
    (∀ (fetch : String → Option (List Nat)) (colors : ResolvedColors)
       (items : List SlideItem),
       (∀ it ∈ items, (it.type = "text" ∨ it.type = "equation") ∧ truthy it.content = true) →
       (render_items fetch colors items (12/5 : ℚ)).2 = 12/5 + items.length) ∧
    (∀ (fetch : String → Option (List Nat)) (colors : ResolvedColors)
       (it : SlideItem) (y : ℚ),
       ¬ ((it.type = "text" ∨ it.type = "equation") ∧ truthy it.content = true) →
       ¬ (it.type = "image" ∧ truthy it.image_url = true) →
       render_item fetch colors it y = ([], y)) :=
  ⟨fun fetch colors items h => render_items_all_text fetch colors items (12/5) h,
   fun fetch colors it y hA hB => render_item_skip fetch colors it y hA hB⟩

/-- C3 witness: two text/equation items advance the cursor from 2.4 to 4.4,
and an unrecognized-type item and an empty-content text item leave it put. -/
theorem c3_witness :
    (render_items fetchNever colorsDefault
        [⟨"text", some "a", none, none, none⟩, ⟨"equation", some "b", none, none, none⟩]
        (12/5 : ℚ)).2 = 12/5 + 2 ∧
    render_item fetchNever colorsDefault ⟨"chart", some "a", none, none, none⟩ (12/5 : ℚ) =
      ([], 12/5) ∧
    render_item fetchNever colorsDefault ⟨"text", some "", none, none, none⟩ (12/5 : ℚ) =
      ([], 12/5) := by
  refine ⟨?_, ?_, ?_⟩
  · have := c3_cursor.1 fetchNever colorsDefault
      [⟨"text", some "a", none, none, none⟩, ⟨"equation", some "b", none, none, none⟩]
      (by decide)
    simpa using this
  · exact c3_cursor.2 fetchNever colorsDefault ⟨"chart", some "a", none, none, none⟩ (12/5)
      (by decide) (by decide)
  · exact c3_cursor.2 fetchNever colorsDefault ⟨"text", some "", none, none, none⟩ (12/5)
      (by decide) (by decide)

/-- C4: on any token of exactly six hexadecimal digits, with or without a
leading `'#'` marker, `hex_to_rgb` returns the RGB triple whose components
are the three consecutive 2-digit byte pairs read in base 16 (determinism is
immediate since `hex_to_rgb` is a function). -/
theorem c4_hex_resolve (c1 c2 c3 c4 c5 c6 : Char) (v1 v2 v3 v4 v5 v6 : Nat)
    (h1 : hexVal c1 = some v1) (h2 : hexVal c2 = some v2)
    (h3 : hexVal c3 = some v3) (h4 : hexVal c4 = some v4)
    (h5 : hexVal c5 = some v5) (h6 : hexVal c6 = some v6) :
    hex_to_rgb (String.mk [c1, c2, c3, c4, c5, c6]) =
      some ⟨16 * v1 + v2, 16 * v3 + v4, 16 * v5 + v6⟩ ∧
    hex_to_rgb (String.mk ['#', c1, c2, c3, c4, c5, c6]) =
      some ⟨16 * v1 + v2, 16 * v3 + v4, 16 * v5 + v6⟩ := by
  have hn := beq_hash_false_of_hexVal h1
  constructor <;>
  · simp only [hex_to_rgb, String.toList, List.dropWhile_cons, hn, Bool.false_eq_true,
      if_false, beq_self_eq_true, if_true, List.dropWhile, List.take, List.drop]
    exact rgb_chain_pairs h1 h2 h3 h4 h5 h6

/-- C4 witness: the spec's own example `"0b1220"` resolves to RGB(11, 18, 32),
with or without the `'#'` marker. -/
theorem c4_witness :
    hexVal '0' = some 0 ∧ hexVal 'b' = some 11 ∧ hexVal '1' = some 1 ∧
    hexVal '2' = some 2 ∧
    hex_to_rgb "0b1220" = some ⟨11, 18, 32⟩ ∧
    hex_to_rgb "#0b1220" = some ⟨11, 18, 32⟩ :=
  ⟨by decide, by decide, by decide, by decide,
   (c4_hex_resolve '0' 'b' '1' '2' '2' '0' 0 11 1 2 2 0
      rfl rfl rfl rfl rfl rfl).1,
   (c4_hex_resolve '0' 'b' '1' '2' '2' '0' 0 11 1 2 2 0
      rfl rfl rfl rfl rfl rfl).2⟩

/-- C5 counterexample: on a spec with an empty slide list and a malformed
primary color token, the conversion fails with the color error, not with
EmptySlideList — the source resolves the theme colors (lines 160-164) before
checking for an empty slide list (line 166), contradicting the claimed step
order. -/
theorem c5_counterexample :
    c5_spec.slides = [] ∧
    build_presentation fetchNever c5_spec = Except.error BuildError.invalidColorFormat ∧
    build_presentation fetchNever c5_spec ≠ Except.error BuildError.emptySlideList := by
  have h2 : build_presentation fetchNever c5_spec =
      Except.error BuildError.invalidColorFormat := rfl
  refine ⟨rfl, h2, ?_⟩
  rw [h2]
  simp

/-- C5 amended: when the slide list is empty and all three theme tokens
resolve, the conversion fails with EmptySlideList; color resolution, however,
precedes the check, so a malformed token wins (see the counterexample). -/
theorem c5_amended (fetch : String → Option (List Nat)) (spec : PresentationSpec)
    (p a t : RGBColor)
    (hp : hex_to_rgb spec.theme_primary = some p)
    (ha : hex_to_rgb spec.theme_accent = some a)
    (ht : hex_to_rgb spec.theme_text = some t)
    (hs : spec.slides = []) :
    build_presentation fetch spec = Except.error BuildError.emptySlideList := by
  simp [build_presentation, hp, ha, ht, hs]

/-- C5 witness: the default (valid) theme with zero slides fails with
EmptySlideList. -/
theorem c5_witness :
    build_presentation fetchNever { slides := ([] : List SlideSpec) } =
      Except.error BuildError.emptySlideList :=
  c5_amended fetchNever { slides := [] } ⟨11, 18, 32⟩ ⟨212, 175, 55⟩ ⟨255, 255, 255⟩
    rfl rfl rfl rfl

/-- C6 counterexample: the five-hex-digit token `"0b122"` is NOT rejected:
`int("2", 16)` parses the one-character slice, so it resolves to
RGB(11, 18, 2) and a conversion using it as the primary theme token succeeds,
contradicting "fails with InvalidColorFormat if fewer than six hex digits
remain". -/
theorem c6_counterexample :
    hex_to_rgb "0b122" = some ⟨11, 18, 2⟩ ∧
    build_presentation fetchNever c6_spec =
      Except.ok ⟨[⟨0, ⟨11, 18, 2⟩,
        [Element.titlePh "T" "Inter" 54 true Align.center ⟨255, 255, 255⟩,
         Element.subtitlePh "" "Inter" 24 Align.center ⟨255, 255, 255⟩]⟩]⟩ ∧
    build_presentation fetchNever c6_spec ≠
      Except.error BuildError.invalidColorFormat := by
  have h2 : build_presentation fetchNever c6_spec =
      Except.ok ⟨[⟨0, ⟨11, 18, 2⟩,
        [Element.titlePh "T" "Inter" 54 true Align.center ⟨255, 255, 255⟩,
         Element.subtitlePh "" "Inter" 24 Align.center ⟨255, 255, 255⟩]⟩]⟩ := rfl
  refine ⟨rfl, h2, ?_⟩
  rw [h2]
  simp

/-- C6 amended: the six-digit boundary is wrong: a token of exactly five hex
digits resolves, its blue component parsed from the single remaining digit,
while a token with fewer than five characters remaining after stripping
leading `'#'` always fails (its third slice is empty, and `int("", 16)`
raises unconditionally); and whenever the primary theme token fails to
resolve, the conversion is rejected with the color error before any
rendering, for every fetcher (so no slide is rendered and no image is
fetched). -/
theorem c6_amended :
    (∀ (c1 c2 c3 c4 c5 : Char) (v1 v2 v3 v4 v5 : Nat),
       hexVal c1 = some v1 → hexVal c2 = some v2 → hexVal c3 = some v3 →
       hexVal c4 = some v4 → hexVal c5 = some v5 →
       hex_to_rgb (String.mk [c1, c2, c3, c4, c5]) =
         some ⟨16 * v1 + v2, 16 * v3 + v4, v5⟩) ∧
    (∀ s : String, (s.toList.dropWhile (fun c => c == '#')).length < 5 →
       hex_to_rgb s = none) ∧
    (∀ (fetch : String → Option (List Nat)) (spec : PresentationSpec),
       hex_to_rgb spec.theme_primary = none →
       build_presentation fetch spec = Except.error BuildError.invalidColorFormat) := by
  refine ⟨?_, hex_to_rgb_short, ?_⟩
  · intro c1 c2 c3 c4 c5 v1 v2 v3 v4 v5 h1 h2 h3 h4 h5
    have hn := beq_hash_false_of_hexVal h1
    simp only [hex_to_rgb, String.toList, List.dropWhile_cons, hn, Bool.false_eq_true,
      if_false, List.take, List.drop]
    exact rgb_chain_five h1 h2 h3 h4 h5
  · intro fetch spec hp
    rcases ha : hex_to_rgb spec.theme_accent <;> rcases ht : hex_to_rgb spec.theme_text <;>
      simp [build_presentation, hp, ha, ht]

/-- C6 witness: the five-hex-digit token resolves to RGB(11, 18, 2); the
four-character token fails; and as a primary theme token the latter makes
the whole conversion fail with the color error. -/
theorem c6_witness :
    hex_to_rgb "0b122" = some ⟨11, 18, 2⟩ ∧
    hex_to_rgb "0b12" = none ∧
    build_presentation fetchNever { theme_primary := "0b12", slides := [] } =
      Except.error BuildError.invalidColorFormat :=
  ⟨c6_amended.1 '0' 'b' '1' '2' '2' 0 11 1 2 2 rfl rfl rfl rfl rfl,
   c6_amended.2.1 "0b12" (by decide),
   c6_amended.2.2 fetchNever { theme_primary := "0b12", slides := [] } rfl⟩

/-- C7 counterexample: a title slide whose input subtitle is absent still gets
a subtitle element — `build_presentation` passes `first.subtitle or ""`
(line 171), which is never `None`, so `add_title_slide` always fills the
subtitle placeholder, here with the empty string; this contradicts "no
subtitle element is added when the input subtitle is the empty string or is
absent". -/
theorem c7_counterexample :
    c7_spec.slides.map SlideSpec.subtitle = [none] ∧
    build_presentation fetchNever c7_spec = Except.ok c7_doc ∧
    Element.subtitlePh "" "Inter" 24 Align.center ⟨255, 255, 255⟩ ∈
      (c7_doc.slides.headD ⟨0, ⟨0, 0, 0⟩, []⟩).elements := by
  refine ⟨rfl, rfl, ?_⟩
  simp [c7_doc]

/-- C7 amended: on the title slide a subtitle element is always added; when
the input subtitle is absent or empty it holds the empty string (the
omit-if-empty behavior belongs to the content path, not the title path). -/
theorem c7_amended (fetch : String → Option (List Nat)) (spec : PresentationSpec)
    (first : SlideSpec) (rest : List SlideSpec) (p a t : RGBColor)
    (hs : spec.slides = first :: rest)
    (hp : hex_to_rgb spec.theme_primary = some p)
    (ha : hex_to_rgb spec.theme_accent = some a)
    (ht : hex_to_rgb spec.theme_text = some t) :
    ∃ d, build_presentation fetch spec = Except.ok d ∧
      d.slides.head?.map RenderedSlide.elements =
        some [Element.titlePh first.title "Inter" 54 true Align.center t,
              Element.subtitlePh (orEmpty first.subtitle) "Inter" 24 Align.center t] := by
  refine ⟨⟨add_title_slide first.title (some (orEmpty first.subtitle)) ⟨p, a, t⟩ ::
           rest.map (add_content_slide fetch ⟨p, a, t⟩)⟩, ?_, ?_⟩
  · simp [build_presentation, hp, ha, ht, hs]
  · simp [add_title_slide]

/-- C7 amended witness: the concrete subtitle-less spec renders its title
slide with an empty-string subtitle element. -/
theorem c7_amended_witness :
    build_presentation fetchNever c7_spec = Except.ok c7_doc ∧
    c7_doc.slides.head?.map RenderedSlide.elements =
      some [Element.titlePh "T" "Inter" 54 true Align.center ⟨255, 255, 255⟩,
            Element.subtitlePh "" "Inter" 24 Align.center ⟨255, 255, 255⟩] := by
  obtain ⟨d, hd, he⟩ := c7_amended fetchNever c7_spec ⟨"T", none, []⟩ []
    ⟨11, 18, 32⟩ ⟨212, 175, 55⟩ ⟨255, 255, 255⟩ rfl rfl rfl rfl
  have : d = c7_doc := by
    rw [show build_presentation fetchNever c7_spec = Except.ok c7_doc from rfl] at hd
    cases hd
    rfl
  subst this
  exact ⟨hd ▸ rfl, he⟩

/-- C8 counterexample: the marker is not "any single leading non-hex
character": `"$0b1220"` fails outright (the `'$'` is not stripped —
`lstrip('#')` at line 45 strips only `'#'` — and `int("$0", 16)` raises),
and `"+0b1220"`, whose `'+'` marker `int()` tolerates as a sign, is not
stripped either: the first byte is parsed from `"+0"` as 0 and the rest
shift, giving RGB(0, 177, 34) instead of the six digits' RGB(11, 18, 32). -/
theorem c8_counterexample :
    hex_to_rgb "$0b1220" = none ∧
    hex_to_rgb "+0b1220" = some ⟨0, 177, 34⟩ ∧
    hex_to_rgb "+0b1220" ≠ some ⟨11, 18, 32⟩ :=
  ⟨by decide, by decide, by decide⟩

/-- C8 amended: only `'#'` acts as a stripped marker.  A `'#'`-marked
six-hex-digit token resolves to the digits' triple.  An ASCII marker that is
not `'#'`, not a hex digit, not a sign and not whitespace (e.g. `'$'`) makes
resolution fail.  A `'+'` marker is tolerated by `int()` as a sign but is
not stripped: the token parses shifted, its first component coming from the
sign-digit pair, so it does not yield the six digits' triple either.
(The ASCII bound keeps the statement inside the region where the slice
parser model is faithful to CPython.) -/
theorem c8_amended (m c1 c2 c3 c4 c5 c6 : Char) (v1 v2 v3 v4 v5 v6 : Nat)
    (_hascii : m.toNat < 128)
    (hm : hexVal m = none) (hsp : isPySpace m = false)
    (hplus : m ≠ '+') (hminus : m ≠ '-') (hmark : m ≠ '#')
    (h1 : hexVal c1 = some v1) (h2 : hexVal c2 = some v2)
    (h3 : hexVal c3 = some v3) (h4 : hexVal c4 = some v4)
    (h5 : hexVal c5 = some v5) (h6 : hexVal c6 = some v6) :
    hex_to_rgb (String.mk (m :: [c1, c2, c3, c4, c5, c6])) = none ∧
    hex_to_rgb (String.mk ('#' :: [c1, c2, c3, c4, c5, c6])) =
      some ⟨16 * v1 + v2, 16 * v3 + v4, 16 * v5 + v6⟩ ∧
    hex_to_rgb (String.mk ('+' :: [c1, c2, c3, c4, c5, c6])) =
      some ⟨v1, 16 * v2 + v3, 16 * v4 + v5⟩ := by
  have hn := beq_hash_false_of_hexVal h1
  have hmb : (m == '#') = false := by simp [hmark]
  have hpb : (m == '+') = false := by simp [hplus]
  have hnb : (m == '-') = false := by simp [hminus]
  refine ⟨?_, ?_, ?_⟩
  · simp only [hex_to_rgb, String.toList, List.dropWhile_cons, hmb, Bool.false_eq_true,
      if_false, List.take, List.drop]
    rw [pyIntHex_first_reject hm hsp hpb hnb c1]
    rfl
  · simp only [hex_to_rgb, String.toList, List.dropWhile_cons, hn, Bool.false_eq_true,
      beq_self_eq_true, if_true, if_false, List.take, List.drop]
    exact rgb_chain_pairs h1 h2 h3 h4 h5 h6
  · have hpn : (('+' : Char) == '#') = false := by decide
    simp only [hex_to_rgb, String.toList, List.dropWhile_cons, hpn, Bool.false_eq_true,
      if_false, List.take, List.drop]
    exact rgb_chain_plus h1 h2 h3 h4 h5

/-- C8 amended witness: `'$'` fails, `'#'` resolves to the digits' triple,
and `'+'` resolves shifted. -/
theorem c8_amended_witness :
    hex_to_rgb "$0b1220" = none ∧
    hex_to_rgb "#0b1220" = some ⟨11, 18, 32⟩ ∧
    hex_to_rgb "+0b1220" = some ⟨0, 177, 34⟩ := by
  obtain ⟨w1, w2, w3⟩ := c8_amended '$' '0' 'b' '1' '2' '2' '0' 0 11 1 2 2 0
    (by decide) (by decide) (by decide) (by decide) (by decide) (by decide)
    rfl rfl rfl rfl rfl rfl
  exact ⟨w1, w2, w3⟩

/-- C9: two specs identical except for `theme_primary` (both resolvable)
yield documents with the same slide count and element lists (texts,
positions, sizes) element for element; the second document is exactly the
first with every slide's background color replaced. -/
theorem c9_theme_primary_isolated (fetch : String → Option (List Nat))
    (spec : PresentationSpec) (tok : String) (first : SlideSpec) (rest : List SlideSpec)
    (p1 p2 a t : RGBColor)
    (hs : spec.slides = first :: rest)
    (hp1 : hex_to_rgb spec.theme_primary = some p1)
    (hp2 : hex_to_rgb tok = some p2)
    (ha : hex_to_rgb spec.theme_accent = some a)
    (ht : hex_to_rgb spec.theme_text = some t) :
    ∃ d1 d2,
      build_presentation fetch spec = Except.ok d1 ∧
      build_presentation fetch { spec with theme_primary := tok } = Except.ok d2 ∧
      d2.slides = d1.slides.map (fun s => { s with background := p2 }) ∧
      d2.slides.length = d1.slides.length ∧
      d2.slides.map RenderedSlide.elements = d1.slides.map RenderedSlide.elements := by
  refine ⟨⟨add_title_slide first.title (some (orEmpty first.subtitle)) ⟨p1, a, t⟩ ::
           rest.map (add_content_slide fetch ⟨p1, a, t⟩)⟩,
          ⟨add_title_slide first.title (some (orEmpty first.subtitle)) ⟨p2, a, t⟩ ::
           rest.map (add_content_slide fetch ⟨p2, a, t⟩)⟩, ?_, ?_, ?_, ?_, ?_⟩
  · simp [build_presentation, hp1, ha, ht, hs]
  · simp [build_presentation, hp2, ha, ht, hs]
  · have htail : rest.map (add_content_slide fetch ⟨p2, a, t⟩)
        = (rest.map (add_content_slide fetch ⟨p1, a, t⟩)).map
            (fun s => { s with background := p2 }) := by
      rw [List.map_map]
      exact List.map_congr_left fun s _ => add_content_slide_bg fetch s p1 p2 a t
    rw [List.map_cons,
      add_title_slide_bg first.title (some (orEmpty first.subtitle)) p1 p2 a t, htail]
  · simp
  · have helems : ∀ s : SlideSpec,
        (add_content_slide fetch ⟨p2, a, t⟩ s).elements
          = (add_content_slide fetch ⟨p1, a, t⟩ s).elements := by
      intro s
      rw [add_content_slide_bg fetch s p1 p2 a t]
    simp only [List.map_cons, List.map_map]
    rw [add_title_slide_bg first.title (some (orEmpty first.subtitle)) p1 p2 a t]
    refine congrArg₂ _ rfl ?_
    exact List.map_congr_left fun s _ => helems s

/-- C9 witness: swapping the primary token of a concrete two-slide spec from
`"0b1220"` to `"d4af37"` only recolors every slide's background. -/
theorem c9_witness :
    ∃ d1 d2,
      build_presentation fetchNever c9_specA = Except.ok d1 ∧
      build_presentation fetchNever { c9_specA with theme_primary := "d4af37" } =
        Except.ok d2 ∧
      d2.slides = d1.slides.map (fun s => { s with background := ⟨212, 175, 55⟩ }) ∧
      d2.slides.length = d1.slides.length ∧
      d2.slides.map RenderedSlide.elements = d1.slides.map RenderedSlide.elements :=
  c9_theme_primary_isolated fetchNever c9_specA "d4af37" ⟨"Deck", none, []⟩
    [⟨"S2", none, [⟨"text", some "hi", none, none, none⟩]⟩]
    ⟨11, 18, 32⟩ ⟨212, 175, 55⟩ ⟨212, 175, 55⟩ ⟨255, 255, 255⟩ rfl rfl rfl rfl rfl

/-- C10: `hex_to_rgb` strips every leading `'#'` (not just one) and reads only
the first six remaining characters, so any token of the form zero or more
`'#'` markers, six hex digits, then arbitrary trailing characters resolves to
the six digits' RGB triple instead of being rejected. -/
theorem c10_marker_and_trailing (k : Nat) (ts : List Char)
    (c1 c2 c3 c4 c5 c6 : Char) (v1 v2 v3 v4 v5 v6 : Nat)
    (h1 : hexVal c1 = some v1) (h2 : hexVal c2 = some v2)
    (h3 : hexVal c3 = some v3) (h4 : hexVal c4 = some v4)
    (h5 : hexVal c5 = some v5) (h6 : hexVal c6 = some v6) :
    hex_to_rgb (String.mk (List.replicate k '#' ++ [c1, c2, c3, c4, c5, c6] ++ ts)) =
      some ⟨16 * v1 + v2, 16 * v3 + v4, 16 * v5 + v6⟩ := by
  have hn := beq_hash_false_of_hexVal h1
  simp only [hex_to_rgb, String.toList, List.append_assoc, List.cons_append,
    List.nil_append, dropWhile_hash_replicate, List.dropWhile_cons, hn,
    Bool.false_eq_true, if_false, List.take, List.drop]
  exact rgb_chain_pairs h1 h2 h3 h4 h5 h6

/-- C10 witness: `"##0b1220zz"` (two markers, six digits, trailing junk)
resolves to RGB(11, 18, 32). -/
theorem c10_witness :
    hex_to_rgb "##0b1220zz" = some ⟨11, 18, 32⟩ ∧
    "##0b1220zz" = String.mk (List.replicate 2 '#' ++ ['0', 'b', '1', '2', '2', '0'] ++ ['z', 'z']) :=
  ⟨c10_marker_and_trailing 2 ['z', 'z'] '0' 'b' '1' '2' '2' '0' 0 11 1 2 2 0
      rfl rfl rfl rfl rfl rfl, rfl⟩

end PptxBackend
